import Mathlib

set_option autoImplicit false

namespace Bubble

/-!
Shallow embedding of the BUBBLE backend's domain services
(`app/services/friends.py`, `app/services/locations.py`,
`app/services/messages.py`, `app/services/users.py`) together with the
schema enumerations they use (`app/schemas/friend.py`,
`app/schemas/address.py`, `app/schemas/location.py`) and the default
configuration values of `app/config.py`.

The Firestore document store is modelled per collection: the
`friendships` collection as a `List Friendship`, the `messages` and
`conversations` collections as lists, and the `users` / `user_locations`
collections as partial maps from document id to document.  Firestore
document ids are globally unique within a collection; deleting a
document is modelled as filtering the list by id.  Timestamps are
integers (seconds), floating point coordinates are real numbers.
-/

/-! ### Schemas: app/schemas/friend.py -/

/-- `FriendshipStatus` enum: `ACTIVE = "active"`, `BLOCKED = "blocked"`. -/
inductive FriendshipStatus where
  | active
  | blocked
deriving DecidableEq, Repr

/-- The string value carried by each `FriendshipStatus` member. -/
def FriendshipStatus.value : FriendshipStatus → String
  | .active => "active"
  | .blocked => "blocked"

/-- `TrustLevel.FRIEND.value = 2` (messaging threshold). -/
def trustLevelFRIEND : Int := 2

/-- A document of the `friendships` collection.  The `status` field is
stored as a raw string in Firestore (the service writes
`FriendshipStatus.*.value`); trust levels are stored as integers 1-5. -/
structure Friendship where
  friendship_id : String
  user_id : String
  friend_id : String
  trust_level : Int
  nickname : Option String
  status : String
deriving DecidableEq, Repr

/-! ### FriendService (app/services/friends.py) -/

/-- Predicate of the Firestore query used by `FriendService.get_friendship`:
`user_id ==`, `friend_id ==`, `status == FriendshipStatus.ACTIVE.value`. -/
def friendshipMatches (user_id friend_id : String) (e : Friendship) : Bool :=
  e.user_id == user_id && e.friend_id == friend_id &&
    e.status == FriendshipStatus.active.value

/-- `FriendService.get_friendship`: the filtered query with `limit(1)`;
returns the first active `user_id -> friend_id` edge, if any. -/
def get_friendship (fs : List Friendship) (user_id friend_id : String) :
    Option Friendship :=
  (fs.filter (friendshipMatches user_id friend_id)).head?

/-- `FriendService.is_friend`. -/
def is_friend (fs : List Friendship) (user_id friend_id : String) : Bool :=
  (get_friendship fs user_id friend_id).isSome

/-- `FriendService.get_trust_level`: `None` when no active edge exists,
otherwise the edge's stored trust level. -/
def get_trust_level (fs : List Friendship) (user_id friend_id : String) :
    Option Int :=
  (get_friendship fs user_id friend_id).map (·.trust_level)

/-- Deletion of a friendship document by document id. -/
def deleteFriendshipDoc (fs : List Friendship) (fid : String) : List Friendship :=
  fs.filter (fun e => e.friendship_id != fid)

/-- Error message raised by `FriendService.remove_friend`. -/
def errFriendshipNotFound : String := "フレンド関係が見つかりません"

/-- `FriendService.remove_friend`: looks up the active `user -> friend`
edge and deletes it, then looks up the active `friend -> user` edge in
the resulting store and deletes it; raises iff neither lookup found an
edge. -/
def remove_friend (fs : List Friendship) (user_id friend_id : String) :
    Except String (List Friendship) :=
  let friendship1 := get_friendship fs user_id friend_id
  let fs1 := match friendship1 with
    | some f => deleteFriendshipDoc fs f.friendship_id
    | none => fs
  let friendship2 := get_friendship fs1 friend_id user_id
  let fs2 := match friendship2 with
    | some f => deleteFriendshipDoc fs1 f.friendship_id
    | none => fs1
  if friendship1.isNone && friendship2.isNone then
    Except.error errFriendshipNotFound
  else
    Except.ok fs2

/-! ### Users and addresses (app/schemas/address.py, app/services/users.py) -/

/-- `AddressType` enum of `app/schemas/address.py`:
`HOME = "home"`, `WORK = "work"`, `SCHOOL = "school"`. -/
inductive AddressType where
  | home
  | work
  | school
deriving DecidableEq, Repr

/-- An anchor-address value stored on a user document.  The latitude and
longitude keys are optional because `determine_location_status` reads the
raw document dictionary and checks key presence; `last_changed_at` and
`registered_at` are timestamps in seconds. -/
structure Address where
  latitude : Option ℝ
  longitude : Option ℝ
  registered_at : Int
  last_changed_at : Int

/-- A custom location entry (`custom_locations` array element).  The
radius is optional: `determine_location_status` reads it with
`.get("radius_meters", 100)`, and the name with `.get("name")`. -/
structure CustomLocation where
  name : Option String
  latitude : ℝ
  longitude : ℝ
  radius_meters : Option ℝ

/-- Modelled from the spec: the user document (`UserInDB` of the absent
`app/schemas/user.py`): identity and display metadata, zero or one each
of `home_address`, `work_address`, `school_address`, and an ordered
sequence of custom locations. -/
structure UserDoc where
  display_name : Option String
  profile_image_url : Option String
  home_address : Option Address
  work_address : Option Address
  school_address : Option Address
  custom_locations : List CustomLocation

/-- The `users` collection: a partial map from uid to user document.
`UserService.get_user_by_uid` is exactly this lookup. -/
abbrev Users := String → Option UserDoc

/-- `Settings.LOCATION_CHANGE_LOCK_DAYS` default (app/config.py). -/
def LOCATION_CHANGE_LOCK_DAYS : Int := 90

/-- Python's `(now - last).days`: whole days elapsed, floored
(`timedelta.days` floors towards negative infinity). -/
def daysBetween (now last : Int) : Int := Int.fdiv (now - last) 86400

/-- `UserService.can_change_address`: `False` when the user does not
exist; otherwise consults `home_address` when the type is `HOME` and
`work_address` for every other type, returning `True` when that address
is absent or was last changed at least `LOCATION_CHANGE_LOCK_DAYS` whole
days ago. -/
def can_change_address (users : Users) (now : Int) (uid : String)
    (address_type : AddressType) : Bool :=
  match users uid with
  | none => false
  | some user =>
    let address := if address_type = AddressType.home then user.home_address
                   else user.work_address
    match address with
    | none => true
    | some a =>
      decide (LOCATION_CHANGE_LOCK_DAYS ≤ daysBetween now a.last_changed_at)

/-- `UserService.get_address_change_days_remaining`: `None` when the user
does not exist or the consulted address is unregistered; otherwise
`max(0, LOCATION_CHANGE_LOCK_DAYS - days_since_change)`. -/
def get_address_change_days_remaining (users : Users) (now : Int)
    (uid : String) (address_type : AddressType) : Option Int :=
  match users uid with
  | none => none
  | some user =>
    let address := if address_type = AddressType.home then user.home_address
                   else user.work_address
    match address with
    | none => none
    | some a =>
      some (max 0 (LOCATION_CHANGE_LOCK_DAYS - daysBetween now a.last_changed_at))

/-! ### Geospatial resolver (app/services/locations.py) -/

/-- Zone radii defaults from `app/config.py`. -/
def HOME_RADIUS_METERS : ℝ := 200

/-- Default work zone radius (app/config.py). -/
def WORK_RADIUS_METERS : ℝ := 500

/-- Default school zone radius (app/config.py). -/
def SCHOOL_RADIUS_METERS : ℝ := 500

/-- `math.radians`: degrees to radians. -/
noncomputable def radians (x : ℝ) : ℝ := x * (Real.pi / 180)

/-- `math.atan2` with the C library convention, over the reals. -/
noncomputable def atan2 (y x : ℝ) : ℝ :=
  if 0 < x then Real.arctan (y / x)
  else if x < 0 then
    (if 0 ≤ y then Real.arctan (y / x) + Real.pi
     else Real.arctan (y / x) - Real.pi)
  else if 0 < y then Real.pi / 2
  else if y < 0 then -(Real.pi / 2)
  else 0

/-- The intermediate value `a` of the haversine formula in
`LocationService.calculate_distance`. -/
noncomputable def haversine_a (lat1 lon1 lat2 lon2 : ℝ) : ℝ :=
  Real.sin (radians (lat2 - lat1) / 2) ^ 2 +
    Real.cos (radians lat1) * Real.cos (radians lat2) *
      Real.sin (radians (lon2 - lon1) / 2) ^ 2

/-- `LocationService.calculate_distance`: haversine great-circle distance
in meters, Earth radius 6,371,000 m. -/
noncomputable def calculate_distance (lat1 lon1 lat2 lon2 : ℝ) : ℝ :=
  let R : ℝ := 6371000
  let a := haversine_a lat1 lon1 lat2 lon2
  let c := 2 * atan2 (Real.sqrt a) (Real.sqrt (1 - a))
  R * c

/-- `LocationStatus` enum of `app/schemas/location.py`. -/
inductive LocationStatus where
  | home
  | work
  | school
  | moving
  | custom
  | unknown
deriving DecidableEq, Repr

/-- One anchor-address check of `determine_location_status`: the address
must be present, carry both coordinate keys, and contain the queried
point within `radius`. -/
noncomputable def addressHit (latitude longitude : ℝ) (addr : Option Address)
    (radius : ℝ) : Bool :=
  match addr with
  | none => false
  | some a =>
    match a.latitude, a.longitude with
    | some alat, some alon =>
      decide (calculate_distance latitude longitude alat alon ≤ radius)
    | _, _ => false

/-- The custom-locations loop of `determine_location_status`: first custom
zone containing the point wins, radius defaulting to 100 m. -/
noncomputable def findCustom (latitude longitude : ℝ) :
    List CustomLocation → Option (LocationStatus × Option String)
  | [] => none
  | c :: rest =>
    if calculate_distance latitude longitude c.latitude c.longitude ≤
        c.radius_meters.getD 100 then
      some (LocationStatus.custom, c.name)
    else
      findCustom latitude longitude rest

/-- `LocationService.determine_location_status`: unknown for an absent
user; otherwise home, then work, then school, then the custom zones in
order, then moving when a speed above 1.4 m/s is supplied, else unknown. -/
noncomputable def determine_location_status (users : Users) (user_id : String)
    (latitude longitude : ℝ) (speed : Option ℝ) :
    LocationStatus × Option String :=
  match users user_id with
  | none => (LocationStatus.unknown, none)
  | some user_data =>
    if addressHit latitude longitude user_data.home_address HOME_RADIUS_METERS then
      (LocationStatus.home, none)
    else if addressHit latitude longitude user_data.work_address WORK_RADIUS_METERS then
      (LocationStatus.work, none)
    else if addressHit latitude longitude user_data.school_address SCHOOL_RADIUS_METERS then
      (LocationStatus.school, none)
    else
      match findCustom latitude longitude user_data.custom_locations with
      | some r => r
      | none =>
        match speed with
        | some s => if (1.4 : ℝ) < s then (LocationStatus.moving, none)
                    else (LocationStatus.unknown, none)
        | none => (LocationStatus.unknown, none)

/-! ### Location snapshots (app/services/locations.py) -/

/-- A document of the `user_locations` collection (current snapshot). -/
structure LocationDoc where
  user_id : String
  status : LocationStatus
  custom_location_name : Option String
  encrypted_data : String
  last_updated : Int

/-- The `user_locations` collection as a partial map from uid. -/
abbrev Locations := String → Option LocationDoc

/-- The view assembled by `LocationService.get_current_location`. -/
structure CurrentLocationResponse where
  user_id : String
  status : LocationStatus
  status_display : String
  color : String
  last_updated : Int
  custom_location_name : Option String
  is_home_registered : Bool
  is_work_registered : Bool
  is_school_registered : Bool

/-- The fixed status display/color table of `get_current_location`. -/
def statusDisplayMap (status : LocationStatus) (custom_name : Option String) :
    String × String :=
  match status with
  | .home => ("🏠 自宅", "#4CAF50")
  | .work => ("🏢 職場", "#2196F3")
  | .school => ("🏫 学校", "#FF9800")
  | .moving => ("🚶 移動中", "#FFC107")
  | .custom => ("📍 " ++ custom_name.getD "カスタム", "#9C27B0")
  | .unknown => ("❓ 不明", "#9E9E9E")

/-- `LocationService.get_current_location`: `None` without a snapshot;
otherwise the display view plus per-anchor registration flags (an absent
user document yields empty registration data). -/
def get_current_location (locs : Locations) (users : Users) (user_id : String) :
    Option CurrentLocationResponse :=
  match locs user_id with
  | none => none
  | some d =>
    let user_data := users user_id
    let dc := statusDisplayMap d.status d.custom_location_name
    some { user_id := user_id
           status := d.status
           status_display := dc.1
           color := dc.2
           last_updated := d.last_updated
           custom_location_name := d.custom_location_name
           is_home_registered := (user_data.bind (·.home_address)).isSome
           is_work_registered := (user_data.bind (·.work_address)).isSome
           is_school_registered := (user_data.bind (·.school_address)).isSome }

/-- Error message raised by `LocationService.get_friend_location`. -/
def errNoFriendship : String := "フレンド関係がありません"

/-- `LocationService.get_friend_location`: queries the `friendships`
collection for `user_id == viewer`, `friend_id == owner` and
`status == "accepted"` (a string literal in the source); raises when the
query result is empty, otherwise delegates to `get_current_location`. -/
def get_friend_location (fs : List Friendship) (locs : Locations)
    (users : Users) (user_id friend_id : String) :
    Except String (Option CurrentLocationResponse) :=
  let friend_doc := fs.filter (fun e =>
    e.user_id == user_id && e.friend_id == friend_id && e.status == "accepted")
  if friend_doc.isEmpty then
    Except.error errNoFriendship
  else
    Except.ok (get_current_location locs users friend_id)

/-! ### Messaging (app/services/messages.py) -/

/-- A document of the `messages` collection. -/
structure Message where
  message_id : String
  conversation_id : String
  sender_id : String
  recipient_id : String
  content : String
  content_type : String
  is_visible_to_recipient : Bool
  is_read : Bool
  created_at : Int
  read_at : Option Int
  revealed_at : Option Int
deriving DecidableEq, Repr

/-- A document of the `conversations` collection; `unread_counts` is the
per-participant unread dictionary. -/
structure Conversation where
  conversation_id : String
  participant_ids : List String
  last_message_at : Int
  last_message_content : String
  last_message_sender_id : String
  unread_counts : List (String × Int)
  created_at : Int
  updated_at : Int
deriving DecidableEq, Repr

/-- Python `dict.get(key, 0)` on a string-keyed integer dictionary. -/
def dictGet (d : List (String × Int)) (k : String) : Int :=
  match d.find? (fun p => p.1 == k) with
  | some p => p.2
  | none => 0

/-- Python `d[key] = v`: replace the entry when the key is present,
append it otherwise. -/
def dictSet (d : List (String × Int)) (k : String) (v : Int) :
    List (String × Int) :=
  if d.any (fun p => p.1 == k) then
    d.map (fun p => if p.1 == k then (k, v) else p)
  else
    d ++ [(k, v)]

/-- `MessageService._get_conversation_id`: the two ids sorted and joined
with an underscore. -/
def conversationIdOf (user_id1 user_id2 : String) : String :=
  if user_id1 ≤ user_id2 then user_id1 ++ "_" ++ user_id2
  else user_id2 ++ "_" ++ user_id1

/-- Error message: sending to a non-friend. -/
def errNotFriend : String := "メッセージを送信するにはフレンドである必要があります"

/-- Error message: sending with trust level below 2. -/
def errLowTrust : String := "メッセージを送信するには信頼レベル2（友達）以上が必要です"

/-- Error message: sending to oneself. -/
def errSelfMessage : String := "自分自身にメッセージを送信できません"

/-- Error message: recipient does not exist. -/
def errRecipientNotFound : String := "指定された受信者が見つかりません"

/-- Error message raised inside `reveal_messages`. -/
def errRevealPerm : String := "このメッセージを表示する権限がありません"

/-- Error message raised inside `mark_messages_as_read`. -/
def errReadPerm : String := "このメッセージを既読にする権限がありません"

/-- `MessageService._check_messaging_permission`: no active edge raises
`errNotFriend`; a trust level below `TrustLevel.FRIEND.value` raises
`errLowTrust`. -/
def _check_messaging_permission (fs : List Friendship)
    (sender_id recipient_id : String) : Except String Unit :=
  match get_trust_level fs sender_id recipient_id with
  | none => Except.error errNotFriend
  | some trust_level =>
    if trust_level < trustLevelFRIEND then Except.error errLowTrust
    else Except.ok ()

/-- `MessageService._create_or_update_conversation`: creates the
conversation with unread counts `{p0: 0, p1: 0}` then sets the
recipient's count to 1, or bumps the recipient's count by 1 and
refreshes the last-message summary. -/
def _create_or_update_conversation (convs : List Conversation)
    (conversation_id : String) (participant_ids : List String)
    (last_message_content last_message_sender_id recipient_id : String)
    (now : Int) : List Conversation :=
  match convs.find? (fun c => c.conversation_id == conversation_id) with
  | none =>
    let base := dictSet (dictSet [] (participant_ids.getD 0 "") 0)
      (participant_ids.getD 1 "") 0
    let unread := dictSet base recipient_id 1
    convs ++ [{ conversation_id := conversation_id
                participant_ids := participant_ids
                last_message_at := now
                last_message_content := last_message_content
                last_message_sender_id := last_message_sender_id
                unread_counts := unread
                created_at := now
                updated_at := now }]
  | some c =>
    let unread := dictSet c.unread_counts recipient_id
      (dictGet c.unread_counts recipient_id + 1)
    convs.map (fun cc =>
      if cc.conversation_id == conversation_id then
        { cc with last_message_at := now
                  last_message_content := last_message_content
                  last_message_sender_id := last_message_sender_id
                  unread_counts := unread
                  updated_at := now }
      else cc)

/-- Result of a successful `MessageService.send_message`: the updated
`messages` and `conversations` collections, the created message, and the
sender display fields attached to the response. -/
structure SendResult where
  messages : List Message
  conversations : List Conversation
  response : Message
  sender_display_name : Option String
  sender_profile_image_url : Option String

/-- `MessageService.send_message`: rejects self-send, missing recipient,
and failed messaging permission, in that order; otherwise stores the new
message with both visibility flags off and upserts the conversation. -/
def send_message (users : Users) (fs : List Friendship)
    (msgs : List Message) (convs : List Conversation)
    (sender_id recipient_id content content_type : String)
    (now : Int) (new_id : String) : Except String SendResult :=
  if sender_id == recipient_id then
    Except.error errSelfMessage
  else if (users recipient_id).isNone then
    Except.error errRecipientNotFound
  else
    match _check_messaging_permission fs sender_id recipient_id with
    | Except.error e => Except.error e
    | Except.ok _ =>
      let conversation_id := conversationIdOf sender_id recipient_id
      let message_dict : Message :=
        { message_id := new_id
          conversation_id := conversation_id
          sender_id := sender_id
          recipient_id := recipient_id
          content := content
          content_type := content_type
          is_visible_to_recipient := false
          is_read := false
          created_at := now
          read_at := none
          revealed_at := none }
      let msgs' := msgs ++ [message_dict]
      let convs' := _create_or_update_conversation convs conversation_id
        [sender_id, recipient_id] content sender_id recipient_id now
      let sender := users sender_id
      Except.ok
        { messages := msgs'
          conversations := convs'
          response := message_dict
          sender_display_name := sender.bind (·.display_name)
          sender_profile_image_url := sender.bind (·.profile_image_url) }

/-- The message document a successful `send_message` stores. -/
def sentMessage (sender_id recipient_id content content_type : String)
    (now : Int) (new_id : String) : Message :=
  { message_id := new_id
    conversation_id := conversationIdOf sender_id recipient_id
    sender_id := sender_id
    recipient_id := recipient_id
    content := content
    content_type := content_type
    is_visible_to_recipient := false
    is_read := false
    created_at := now
    read_at := none
    revealed_at := none }

/-- The full result a successful `send_message` returns. -/
def sendOkResult (users : Users) (msgs : List Message)
    (convs : List Conversation)
    (sender_id recipient_id content content_type : String) (now : Int)
    (new_id : String) : SendResult :=
  { messages := msgs ++
      [sentMessage sender_id recipient_id content content_type now new_id]
    conversations := _create_or_update_conversation convs
      (conversationIdOf sender_id recipient_id) [sender_id, recipient_id]
      content sender_id recipient_id now
    response := sentMessage sender_id recipient_id content content_type now new_id
    sender_display_name := (users sender_id).bind (·.display_name)
    sender_profile_image_url := (users sender_id).bind (·.profile_image_url) }

/-- Message lookup by document id. -/
def findMessage (msgs : List Message) (message_id : String) : Option Message :=
  msgs.find? (fun m => m.message_id == message_id)

/-- The `message_ref.update` of `reveal_messages`. -/
def setRevealed (msgs : List Message) (message_id : String) (now : Int) :
    List Message :=
  msgs.map (fun m =>
    if m.message_id == message_id then
      { m with is_visible_to_recipient := true, revealed_at := some now }
    else m)

/-- The `message_ref.update` of `mark_messages_as_read`. -/
def setRead (msgs : List Message) (message_id : String) (now : Int) :
    List Message :=
  msgs.map (fun m =>
    if m.message_id == message_id then
      { m with is_read := true, read_at := some now }
    else m)

/-- Result of `reveal_messages`: the (possibly partially) updated message
store, the count of messages actually changed, and the pending error of
the aborting permission failure, if any. -/
structure RevealResult where
  messages : List Message
  updated_count : Nat
  err : Option String
deriving DecidableEq, Repr

/-- The per-id loop of `MessageService.reveal_messages`: skip missing
ids, raise on a foreign recipient (keeping earlier updates), skip
already-revealed messages, otherwise reveal and count. -/
def revealLoop (user_id : String) (now : Int) :
    List String → List Message → Nat → RevealResult
  | [], msgs, updated_count => ⟨msgs, updated_count, none⟩
  | message_id :: rest, msgs, updated_count =>
    match findMessage msgs message_id with
    | none => revealLoop user_id now rest msgs updated_count
    | some m =>
      if m.recipient_id ≠ user_id then ⟨msgs, updated_count, some errRevealPerm⟩
      else if m.is_visible_to_recipient then
        revealLoop user_id now rest msgs updated_count
      else
        revealLoop user_id now rest (setRevealed msgs message_id now)
          (updated_count + 1)

/-- `MessageService.reveal_messages`. -/
def reveal_messages (user_id : String) (message_ids : List String)
    (msgs : List Message) (now : Int) : RevealResult :=
  revealLoop user_id now message_ids msgs 0

/-- Result of `mark_messages_as_read`: message and conversation stores,
updated count, pending error. -/
structure MarkReadResult where
  messages : List Message
  conversations : List Conversation
  updated_count : Nat
  err : Option String
deriving DecidableEq, Repr

/-- The per-id loop of `MessageService.mark_messages_as_read`, threading
the per-conversation decrement dictionary. -/
def markReadLoop (user_id : String) (now : Int) :
    List String → List Message → Nat → List (String × Int) →
      List Message × Nat × List (String × Int) × Option String
  | [], msgs, updated_count, decs => (msgs, updated_count, decs, none)
  | message_id :: rest, msgs, updated_count, decs =>
    match findMessage msgs message_id with
    | none => markReadLoop user_id now rest msgs updated_count decs
    | some m =>
      if m.recipient_id ≠ user_id then (msgs, updated_count, decs, some errReadPerm)
      else if m.is_read then markReadLoop user_id now rest msgs updated_count decs
      else
        markReadLoop user_id now rest (setRead msgs message_id now)
          (updated_count + 1)
          (dictSet decs m.conversation_id (dictGet decs m.conversation_id + 1))

/-- One decrement application of the second loop of
`mark_messages_as_read`: floor the viewer's unread count at 0. -/
def applyDecrement (user_id : String) (convs : List Conversation)
    (conversation_id : String) (decrement : Int) : List Conversation :=
  match convs.find? (fun c => c.conversation_id == conversation_id) with
  | none => convs
  | some c =>
    let current_unread := dictGet c.unread_counts user_id
    let new_unread := max 0 (current_unread - decrement)
    convs.map (fun cc =>
      if cc.conversation_id == conversation_id then
        { cc with unread_counts := dictSet cc.unread_counts user_id new_unread }
      else cc)

/-- `MessageService.mark_messages_as_read`: the per-id loop, then — only
when no permission error aborted the call — the accumulated decrements
applied to the affected conversations. -/
def mark_messages_as_read (user_id : String) (message_ids : List String)
    (msgs : List Message) (convs : List Conversation) (now : Int) :
    MarkReadResult :=
  match markReadLoop user_id now message_ids msgs 0 [] with
  | (msgs', updated_count, _, some e) => ⟨msgs', convs, updated_count, some e⟩
  | (msgs', updated_count, decs, none) =>
    ⟨msgs', decs.foldl (fun cs p => applyDecrement user_id cs p.1 p.2) convs,
      updated_count, none⟩

/-! ### Operation sequences over the message stores (for the unread-count
invariant) -/

/-- A client-visible operation touching the conversations collection. -/
inductive Op where
  | send (sender_id recipient_id content content_type : String)
      (now : Int) (new_id : String)
  | markRead (user_id : String) (message_ids : List String) (now : Int)

/-- Effect of one operation on the `(messages, conversations)` stores: a
failed send writes nothing, a mark-read that aborts on a permission error
keeps its earlier message updates but never reaches the decrement loop. -/
def applyOp (users : Users) (fs : List Friendship)
    (s : List Message × List Conversation) (op : Op) :
    List Message × List Conversation :=
  match op with
  | .send sender_id recipient_id content content_type now new_id =>
    match send_message users fs s.1 s.2 sender_id recipient_id content
        content_type now new_id with
    | Except.ok r => (r.messages, r.conversations)
    | Except.error _ => s
  | .markRead user_id message_ids now =>
    let r := mark_messages_as_read user_id message_ids s.1 s.2 now
    (r.messages, r.conversations)

/-- All unread counters of every conversation are non-negative. -/
def UnreadNonneg (convs : List Conversation) : Prop :=
  ∀ c ∈ convs, ∀ p ∈ c.unread_counts, 0 ≤ p.2

instance (convs : List Conversation) : Decidable (UnreadNonneg convs) := by
  unfold UnreadNonneg
  infer_instance

/-! ### Concrete stores used by counterexamples and witnesses -/

/-- An anchor address at the origin, last changed at time 0. -/
def wAddrOld : Address :=
  { latitude := some 0, longitude := some 0, registered_at := 0, last_changed_at := 0 }

/-- A custom location at the origin with default radius. -/
def wGym : CustomLocation :=
  { name := some "gym", latitude := 0, longitude := 0, radius_meters := none }

/-- A user with overlapping home, work, school and custom zones at the
origin. -/
def wAlice : UserDoc :=
  { display_name := some "Alice", profile_image_url := none,
    home_address := some wAddrOld, work_address := some wAddrOld,
    school_address := some wAddrOld, custom_locations := [wGym] }

/-- A user with no registered zones. -/
def wBob : UserDoc :=
  { display_name := some "Bob", profile_image_url := none,
    home_address := none, work_address := none, school_address := none,
    custom_locations := [] }

/-- A two-user store. -/
def wUsersAB : Users := fun uid =>
  if uid == "alice" then some wAlice
  else if uid == "bob" then some wBob
  else none

/-- A user whose school address was changed at time 0 and who has no
work address. -/
def wCarol : UserDoc :=
  { display_name := none, profile_image_url := none,
    home_address := none, work_address := none,
    school_address := some wAddrOld, custom_locations := [] }

/-- Store containing only `wCarol`. -/
def wUsersCarol : Users := fun uid =>
  if uid == "carol" then some wCarol else none

/-- An active alice → bob edge at trust level 2. -/
def wEdgeAB : Friendship :=
  { friendship_id := "f1", user_id := "alice", friend_id := "bob",
    trust_level := 2, nickname := none,
    status := FriendshipStatus.active.value }

/-- A blocked dave → erin edge. -/
def cBlockedEdge : Friendship :=
  { friendship_id := "f9", user_id := "dave", friend_id := "erin",
    trust_level := 2, nickname := none,
    status := FriendshipStatus.blocked.value }

/-- A location snapshot for bob. -/
def wBobLocation : LocationDoc :=
  { user_id := "bob", status := LocationStatus.home,
    custom_location_name := none, encrypted_data := "blob",
    last_updated := 100 }

/-- Snapshot store containing only bob's location. -/
def wLocations : Locations := fun uid =>
  if uid == "bob" then some wBobLocation else none

/-- A message from alice to bob that is already revealed and read. -/
def mReadMsg : Message :=
  { message_id := "m1", conversation_id := "alice_bob",
    sender_id := "alice", recipient_id := "bob", content := "hi",
    content_type := "text", is_visible_to_recipient := true,
    is_read := true, created_at := 0, read_at := some 5,
    revealed_at := some 3 }

/-- The alice/bob conversation with both counters at 0. -/
def wConvAB : Conversation :=
  { conversation_id := "alice_bob", participant_ids := ["alice", "bob"],
    last_message_at := 0, last_message_content := "hi",
    last_message_sender_id := "alice",
    unread_counts := [("alice", 0), ("bob", 0)], created_at := 0,
    updated_at := 0 }

/-- A small operation sequence: a send followed by two mark-reads. -/
def wOps : List Op :=
  [Op.send "alice" "bob" "hi" "text" 0 "m1",
   Op.markRead "bob" ["m1"] 1,
   Op.markRead "bob" ["m1"] 2]

/-! ### Theorems -/

/-- The haversine intermediate value is symmetric in the two points. -/
theorem haversine_a_comm (lat1 lon1 lat2 lon2 : ℝ) :
    haversine_a lat1 lon1 lat2 lon2 = haversine_a lat2 lon2 lat1 lon1 := by
  have hs : ∀ x y : ℝ,
      Real.sin (radians (x - y) / 2) ^ 2 = Real.sin (radians (y - x) / 2) ^ 2 := by
    intro x y
    have h : radians (x - y) = -(radians (y - x)) := by
      unfold radians; ring
    rw [h, neg_div, Real.sin_neg, neg_sq]
  unfold haversine_a
  rw [hs lat1 lat2, hs lon1 lon2]
  ring

/-- The haversine intermediate value vanishes on the diagonal. -/
theorem haversine_a_self (lat lon : ℝ) : haversine_a lat lon lat lon = 0 := by
  unfold haversine_a radians
  simp

/-- The distance of a point to itself is zero. -/
theorem calculate_distance_self (lat lon : ℝ) :
    calculate_distance lat lon lat lon = 0 := by
  simp only [calculate_distance, haversine_a_self]
  norm_num [atan2, Real.arctan_zero]

/-- C8: the haversine distance function is symmetric, and zero on the
diagonal: `distance(A,B) = distance(B,A)` for all coordinate pairs, and
`distance(A,A) = 0` for every coordinate. -/
theorem calculate_distance_symm_and_diag :
    (∀ lat1 lon1 lat2 lon2 : ℝ,
      calculate_distance lat1 lon1 lat2 lon2 =
        calculate_distance lat2 lon2 lat1 lon1) ∧
    (∀ lat lon : ℝ, calculate_distance lat lon lat lon = 0) := by
  constructor
  · intro lat1 lon1 lat2 lon2
    simp only [calculate_distance]
    rw [haversine_a_comm]
  · exact calculate_distance_self

/-- C9: a non-existent user is reported as locked by
`can_change_address` (result `False` for every address type) but as
unregistered by `get_address_change_days_remaining` (result `None`). -/
theorem nonexistent_user_address_policy (users : Users) (now : Int)
    (uid : String) (ty : AddressType) (h : users uid = none) :
    can_change_address users now uid ty = false ∧
    get_address_change_days_remaining users now uid ty = none := by
  constructor
  · unfold can_change_address
    rw [h]
  · unfold get_address_change_days_remaining
    rw [h]

/-- Witness for the non-existent-user policy at a concrete empty store. -/
theorem nonexistent_user_address_policy_witness :
    can_change_address (fun _ => none) 0 "ghost" AddressType.school = false ∧
    get_address_change_days_remaining (fun _ => none) 0 "ghost"
      AddressType.school = none :=
  nonexistent_user_address_policy (fun _ => none) 0 "ghost" AddressType.school rfl

/-- C2 counterexample: for the school address type the code consults the
work address, so a user whose school address was changed today (0 of the
90 locked days elapsed) but who has no work address is allowed to
change: `can_change_address` returns `True` although an address of the
queried type exists and is inside the lock window. -/
theorem can_change_school_ignores_school_counterexample :
    can_change_address wUsersCarol 0 "carol" AddressType.school = true ∧
    wCarol.school_address = some wAddrOld ∧
    daysBetween 0 wAddrOld.last_changed_at < LOCATION_CHANGE_LOCK_DAYS := by
  refine ⟨rfl, rfl, ?_⟩
  decide

/-- C2 amended: for an existing user, `can_change_address` consults the
home address for the home type and the work address for the work type —
true exactly when the consulted address is unregistered or at least
`LOCATION_CHANGE_LOCK_DAYS` whole days have elapsed since its
`last_changed_at` — while for the school type it returns exactly the
work-type decision (the school address itself is never consulted). -/
theorem can_change_address_characterization (users : Users) (now : Int)
    (uid : String) (u : UserDoc) (h : users uid = some u) :
    (can_change_address users now uid AddressType.home = true ↔
      u.home_address = none ∨
      ∃ a, u.home_address = some a ∧
        LOCATION_CHANGE_LOCK_DAYS ≤ daysBetween now a.last_changed_at) ∧
    (can_change_address users now uid AddressType.work = true ↔
      u.work_address = none ∨
      ∃ a, u.work_address = some a ∧
        LOCATION_CHANGE_LOCK_DAYS ≤ daysBetween now a.last_changed_at) ∧
    can_change_address users now uid AddressType.school =
      can_change_address users now uid AddressType.work := by
  refine ⟨?_, ?_, ?_⟩
  · unfold can_change_address
    rw [h]
    cases hh : u.home_address with
    | none => simp [hh]
    | some a => simp [hh]
  · unfold can_change_address
    rw [h]
    cases hw : u.work_address with
    | none => simp [hw]
    | some a => simp [hw]
  · rfl

/-- Witness for the amended address-lock characterization on the
concrete store of `wCarol`. -/
theorem can_change_address_characterization_witness :
    (can_change_address wUsersCarol 0 "carol" AddressType.home = true ↔
      wCarol.home_address = none ∨
      ∃ a, wCarol.home_address = some a ∧
        LOCATION_CHANGE_LOCK_DAYS ≤ daysBetween 0 a.last_changed_at) ∧
    (can_change_address wUsersCarol 0 "carol" AddressType.work = true ↔
      wCarol.work_address = none ∨
      ∃ a, wCarol.work_address = some a ∧
        LOCATION_CHANGE_LOCK_DAYS ≤ daysBetween 0 a.last_changed_at) ∧
    can_change_address wUsersCarol 0 "carol" AddressType.school =
      can_change_address wUsersCarol 0 "carol" AddressType.work :=
  can_change_address_characterization wUsersCarol 0 "carol" wCarol rfl

/-- On any friendship store whose statuses come from the
`FriendshipStatus` enum — the only values the friend service ever writes
— the `status == "accepted"` query of `get_friend_location` is empty, so
the call always raises the permission error. -/
theorem get_friend_location_always_denies (fs : List Friendship)
    (locs : Locations) (users : Users) (user_id friend_id : String)
    (h : ∀ e ∈ fs, e.status = FriendshipStatus.active.value ∨
      e.status = FriendshipStatus.blocked.value) :
    get_friend_location fs locs users user_id friend_id =
      Except.error errNoFriendship := by
  unfold get_friend_location
  have hnil : fs.filter (fun e =>
      e.user_id == user_id && e.friend_id == friend_id &&
        e.status == "accepted") = [] := by
    rw [List.filter_eq_nil_iff]
    intro e he
    rcases h e he with h1 | h1 <;>
      simp [h1, FriendshipStatus.value, Bool.and_eq_true]
  rw [hnil]
  rfl

/-- C1: evaluation at the failing input — the store holds an active
alice → bob edge and bob has a current location snapshot, yet
`get_friend_location("alice", "bob")` raises the permission error
instead of returning `get_current_location("bob")`, because its query
filters on the literal status string `"accepted"` while friendships are
only ever written with status `"active"`. -/
theorem get_friend_location_rejects_active_edge :
    get_friendship [wEdgeAB] "alice" "bob" = some wEdgeAB ∧
    wEdgeAB.status = FriendshipStatus.active.value ∧
    (get_current_location wLocations wUsersAB "bob").isSome = true ∧
    get_friend_location [wEdgeAB] wLocations wUsersAB "alice" "bob" =
      Except.error errNoFriendship := by
  refine ⟨rfl, rfl, rfl, ?_⟩
  exact get_friend_location_always_denies [wEdgeAB] wLocations wUsersAB
    "alice" "bob" (by decide)

/-- C4: whenever the queried point lies within `HOME_RADIUS_METERS` of
an existing user's registered home coordinates, status resolution
returns `home` with no custom label — regardless of the user's work,
school and custom zones and of the speed argument (home is checked
first, first match wins). -/
theorem home_zone_precedence (users : Users) (uid : String)
    (latitude longitude : ℝ) (speed : Option ℝ) (u : UserDoc) (a : Address)
    (hlat hlon : ℝ) (hu : users uid = some u)
    (hha : u.home_address = some a) (halat : a.latitude = some hlat)
    (halon : a.longitude = some hlon)
    (hdist : calculate_distance latitude longitude hlat hlon ≤
      HOME_RADIUS_METERS) :
    determine_location_status users uid latitude longitude speed =
      (LocationStatus.home, none) := by
  unfold determine_location_status
  rw [hu]
  have hhit : addressHit latitude longitude u.home_address
      HOME_RADIUS_METERS = true := by
    rw [hha]
    simp [addressHit, halat, halon, hdist]
  simp [hhit]

/-- Witness for home-zone precedence: `wAlice` has work, school and
custom zones that also contain the origin, and a positive speed is
supplied, yet the origin resolves to `home`. -/
theorem home_zone_precedence_witness :
    wUsersAB "alice" = some wAlice ∧
    wAlice.work_address = some wAddrOld ∧
    wAlice.school_address = some wAddrOld ∧
    wAlice.custom_locations = [wGym] ∧
    determine_location_status wUsersAB "alice" 0 0 (some 2) =
      (LocationStatus.home, none) :=
  ⟨rfl, rfl, rfl, rfl,
    home_zone_precedence wUsersAB "alice" 0 0 (some 2) wAlice wAddrOld 0 0
      rfl rfl rfl rfl
      (by rw [calculate_distance_self]; norm_num [HOME_RADIUS_METERS])⟩

/-- C6: once a message is revealed and read by its recipient, repeating
`reveal` or `mark_messages_as_read` on its id is a no-op: the message
store and the conversation store are unchanged, no unread-count
decrement is applied, the reported update count is 0 and no error is
raised. -/
theorem reveal_then_mark_read_idempotent (msgs : List Message)
    (convs : List Conversation) (user mid : String) (now now2 : Int)
    (m : Message) (hfind : findMessage msgs mid = some m)
    (hrec : m.recipient_id = user)
    (hvis : m.is_visible_to_recipient = true) (hread : m.is_read = true) :
    reveal_messages user [mid] msgs now = ⟨msgs, 0, none⟩ ∧
    mark_messages_as_read user [mid] msgs convs now2 =
      ⟨msgs, convs, 0, none⟩ := by
  constructor
  · unfold reveal_messages revealLoop
    rw [hfind]
    simp [hrec, hvis, revealLoop]
  · unfold mark_messages_as_read markReadLoop
    rw [hfind]
    simp [hrec, hread, markReadLoop]

/-- Witness for the idempotence of repeated reveal/mark-read on an
already revealed-and-read concrete message. -/
theorem reveal_then_mark_read_idempotent_witness :
    reveal_messages "bob" ["m1"] [mReadMsg] 10 = ⟨[mReadMsg], 0, none⟩ ∧
    mark_messages_as_read "bob" ["m1"] [mReadMsg] [wConvAB] 11 =
      ⟨[mReadMsg], [wConvAB], 0, none⟩ :=
  reveal_then_mark_read_idempotent [mReadMsg] [wConvAB] "bob" "m1" 10 11
    mReadMsg rfl rfl rfl rfl

/-- C10: the per-id recipient check fires before the already-transitioned
skip: an existing message whose recipient is not the caller makes the
call raise the permission error even when the message is already
revealed and read — it is not silently skipped. -/
theorem recipient_check_precedes_skip (msgs : List Message)
    (convs : List Conversation) (user mid : String) (now : Int)
    (m : Message) (hfind : findMessage msgs mid = some m)
    (hrec : m.recipient_id ≠ user)
    (_hvis : m.is_visible_to_recipient = true) (_hread : m.is_read = true) :
    reveal_messages user [mid] msgs now = ⟨msgs, 0, some errRevealPerm⟩ ∧
    mark_messages_as_read user [mid] msgs convs now =
      ⟨msgs, convs, 0, some errReadPerm⟩ := by
  constructor
  · unfold reveal_messages revealLoop
    rw [hfind]
    simp [hrec]
  · unfold mark_messages_as_read markReadLoop
    rw [hfind]
    simp [hrec]

/-- Witness: a non-recipient caller hits the permission error on an
already revealed-and-read concrete message. -/
theorem recipient_check_precedes_skip_witness :
    mReadMsg.is_visible_to_recipient = true ∧ mReadMsg.is_read = true ∧
    reveal_messages "mallory" ["m1"] [mReadMsg] 7 =
      ⟨[mReadMsg], 0, some errRevealPerm⟩ ∧
    mark_messages_as_read "mallory" ["m1"] [mReadMsg] [wConvAB] 7 =
      ⟨[mReadMsg], [wConvAB], 0, some errReadPerm⟩ := by
  have h := recipient_check_precedes_skip [mReadMsg] [wConvAB] "mallory"
    "m1" 7 mReadMsg rfl (by decide) rfl rfl
  exact ⟨rfl, rfl, h.1, h.2⟩

/-- C3: `send_message` fails on self-send, on a missing recipient, on a
missing active sender → recipient edge (error `errNotFriend`) and on a
trust level below 2 (error `errLowTrust`); the two permission failures
carry distinct messages but are the same error kind (both are the
`Except.error` case of the same result type); with an existing recipient
and an active edge of trust level at least 2, the send succeeds and the
created message has `is_visible_to_recipient = false` and
`is_read = false`. -/
theorem send_message_spec (users : Users) (fs : List Friendship)
    (msgs : List Message) (convs : List Conversation)
    (sender recipient content ctype : String) (now : Int) (nid : String) :
    (sender = recipient →
      send_message users fs msgs convs sender recipient content ctype now nid =
        Except.error errSelfMessage) ∧
    (sender ≠ recipient → users recipient = none →
      send_message users fs msgs convs sender recipient content ctype now nid =
        Except.error errRecipientNotFound) ∧
    (sender ≠ recipient → (users recipient).isSome = true →
      get_trust_level fs sender recipient = none →
      send_message users fs msgs convs sender recipient content ctype now nid =
        Except.error errNotFriend) ∧
    (∀ t : Int, sender ≠ recipient → (users recipient).isSome = true →
      get_trust_level fs sender recipient = some t → t < trustLevelFRIEND →
      send_message users fs msgs convs sender recipient content ctype now nid =
        Except.error errLowTrust) ∧
    errNotFriend ≠ errLowTrust ∧
    (∀ t : Int, sender ≠ recipient → (users recipient).isSome = true →
      get_trust_level fs sender recipient = some t → trustLevelFRIEND ≤ t →
      ∃ r : SendResult,
        send_message users fs msgs convs sender recipient content ctype now nid =
          Except.ok r ∧
        r.response.is_visible_to_recipient = false ∧
        r.response.is_read = false ∧
        r.messages = msgs ++ [r.response]) := by
  refine ⟨?_, ?_, ?_, ?_, ?_, ?_⟩
  · intro h
    simp [send_message, h]
  · intro hne hnone
    simp [send_message, hne, hnone]
  · intro hne hsome htl
    obtain ⟨u, hu⟩ := Option.isSome_iff_exists.mp hsome
    simp [send_message, hne, hu, _check_messaging_permission, htl]
  · intro t hne hsome htl hlt
    obtain ⟨u, hu⟩ := Option.isSome_iff_exists.mp hsome
    simp [send_message, hne, hu, _check_messaging_permission, htl, hlt]
  · decide
  · intro t hne hsome htl hge
    obtain ⟨u, hu⟩ := Option.isSome_iff_exists.mp hsome
    have hlt : ¬t < trustLevelFRIEND := not_lt.mpr hge
    refine ⟨sendOkResult users msgs convs sender recipient content ctype now nid,
      ?_, rfl, rfl, rfl⟩
    simp [send_message, sendOkResult, sentMessage, hne, hu,
      _check_messaging_permission, htl, hlt]

/-- Witness for the send specification: the trust-2 alice → bob edge
lets alice send, and the stored message starts hidden and unread. -/
theorem send_message_spec_witness :
    ("alice" : String) ≠ "bob" ∧ (wUsersAB "bob").isSome = true ∧
    get_trust_level [wEdgeAB] "alice" "bob" = some 2 ∧
    trustLevelFRIEND ≤ 2 ∧
    ∃ r : SendResult,
      send_message wUsersAB [wEdgeAB] [] [] "alice" "bob" "hi" "text" 0 "m1" =
        Except.ok r ∧
      r.response.is_visible_to_recipient = false ∧
      r.response.is_read = false ∧
      r.messages = [] ++ [r.response] :=
  ⟨by decide, rfl, rfl, by decide,
    (send_message_spec wUsersAB [wEdgeAB] [] [] "alice" "bob" "hi" "text" 0
      "m1").2.2.2.2.2 2 (by decide) rfl rfl (by decide)⟩

/-- A successful `get_friendship` lookup returns a matching member of
the store. -/
theorem get_friendship_some {fs : List Friendship} {u f : String}
    {e : Friendship} (h : get_friendship fs u f = some e) :
    e ∈ fs ∧ friendshipMatches u f e = true := by
  unfold get_friendship at h
  cases hl : fs.filter (friendshipMatches u f) with
  | nil => rw [hl] at h; exact Option.noConfusion h
  | cons a t =>
    rw [hl] at h
    have ha : a = e := by
      simpa using h
    have hmem : a ∈ fs.filter (friendshipMatches u f) := by
      rw [hl]; exact List.mem_cons_self a t
    rw [← ha]
    exact List.mem_filter.mp hmem

/-- An empty `get_friendship` lookup means no member of the store
matches. -/
theorem get_friendship_none {fs : List Friendship} {u f : String} :
    get_friendship fs u f = none ↔
      ∀ e ∈ fs, friendshipMatches u f e = false := by
  unfold get_friendship
  rw [List.head?_eq_none_iff, List.filter_eq_nil_iff]
  constructor
  · intro h e he
    simpa using h e he
  · intro h e he
    simp [h e he]

/-- C7 counterexample: a blocked dave → erin edge exists between the
pair, yet `remove_friend("dave", "erin")` raises the not-found error —
refuting that the call deletes edges regardless of status and errs only
when neither direction has any edge. -/
theorem remove_friend_blocked_edge_counterexample :
    (∃ e ∈ [cBlockedEdge],
      (e.user_id = "dave" ∧ e.friend_id = "erin") ∨
      (e.user_id = "erin" ∧ e.friend_id = "dave")) ∧
    remove_friend [cBlockedEdge] "dave" "erin" =
      Except.error errFriendshipNotFound := by
  exact ⟨⟨cBlockedEdge, by decide, by decide⟩, rfl⟩

/-- C7 amended: on a store with unique document ids and at most one
matching active edge per direction (the shape `accept_friend_request`
produces), `remove_friend` raises the not-found error exactly when
neither direction has an **active** edge, and on success the resulting
store is the input minus the active edges of the pair in both
directions — blocked edges are neither considered nor removed. -/
theorem remove_friend_correct (fs : List Friendship) (u f : String)
    (hid : ∀ a ∈ fs, ∀ b ∈ fs, a.friendship_id = b.friendship_id → a = b)
    (h1 : ∀ a ∈ fs, ∀ b ∈ fs, friendshipMatches u f a = true →
      friendshipMatches u f b = true → a = b)
    (h2 : ∀ a ∈ fs, ∀ b ∈ fs, friendshipMatches f u a = true →
      friendshipMatches f u b = true → a = b) :
    (remove_friend fs u f = Except.error errFriendshipNotFound ↔
      get_friendship fs u f = none ∧ get_friendship fs f u = none) ∧
    (∀ fs', remove_friend fs u f = Except.ok fs' →
      fs' = fs.filter (fun e =>
        !(friendshipMatches u f e || friendshipMatches f u e))) := by
  cases hg1 : get_friendship fs u f with
  | none =>
    have hall1 : ∀ e ∈ fs, friendshipMatches u f e = false :=
      get_friendship_none.mp hg1
    cases hg2 : get_friendship fs f u with
    | none =>
      have hrem : remove_friend fs u f = Except.error errFriendshipNotFound := by
        simp [remove_friend, hg1, hg2]
      refine ⟨⟨fun _ => ⟨rfl, rfl⟩, fun _ => hrem⟩, ?_⟩
      intro fs' hok
      rw [hrem] at hok
      exact Except.noConfusion hok
    | some e2 =>
      obtain ⟨he2mem, he2p⟩ := get_friendship_some hg2
      have hrem : remove_friend fs u f =
          Except.ok (deleteFriendshipDoc fs e2.friendship_id) := by
        simp [remove_friend, hg1, hg2]
      constructor
      · rw [hrem]
        constructor
        · intro h; exact Except.noConfusion h
        · rintro ⟨-, hc⟩
          exact Option.noConfusion hc
      · intro fs' hok
        rw [hrem] at hok
        injection hok with hok
        subst hok
        unfold deleteFriendshipDoc
        apply List.filter_congr
        intro x hx
        rw [hall1 x hx]
        simp only [Bool.false_or]
        by_cases hpx : friendshipMatches f u x = true
        · have hxe : x = e2 := h2 x hx e2 he2mem hpx he2p
          simp [hxe, he2p]
        · have hpx' : friendshipMatches f u x = false := by
            simpa using hpx
          have hne : x.friendship_id ≠ e2.friendship_id := by
            intro heq
            have hxe : x = e2 := hid x hx e2 he2mem heq
            rw [hxe, he2p] at hpx'
            exact Bool.noConfusion hpx'
          simp [hpx', bne_iff_ne, hne]
  | some e1 =>
    obtain ⟨he1mem, he1p⟩ := get_friendship_some hg1
    have hg1err : ∀ P : Prop,
        ((some e1 = (none : Option Friendship)) ∧
          get_friendship fs f u = none) → P :=
      fun _ h => Option.noConfusion h.1
    cases hg2 : get_friendship (deleteFriendshipDoc fs e1.friendship_id) f u with
    | none =>
      have hall2 : ∀ y ∈ fs, y.friendship_id ≠ e1.friendship_id →
          friendshipMatches f u y = false := by
        intro y hy hne
        refine get_friendship_none.mp hg2 y ?_
        unfold deleteFriendshipDoc
        exact List.mem_filter.mpr ⟨hy, by simp [bne_iff_ne, hne]⟩
      have hrem : remove_friend fs u f =
          Except.ok (deleteFriendshipDoc fs e1.friendship_id) := by
        simp [remove_friend, hg1, hg2]
      constructor
      · rw [hrem]
        exact ⟨fun h => Except.noConfusion h, fun h => hg1err _ h⟩
      · intro fs' hok
        rw [hrem] at hok
        injection hok with hok
        subst hok
        unfold deleteFriendshipDoc
        apply List.filter_congr
        intro x hx
        by_cases hxid : x.friendship_id = e1.friendship_id
        · have hxe : x = e1 := hid x hx e1 he1mem hxid
          simp [hxe, he1p]
        · have hp1x : friendshipMatches u f x = false := by
            by_contra hc
            have hcx : friendshipMatches u f x = true := by simpa using hc
            exact hxid (congrArg Friendship.friendship_id
              (h1 x hx e1 he1mem hcx he1p))
          simp [hp1x, hall2 x hx hxid, bne_iff_ne, hxid]
    | some e2 =>
      obtain ⟨he2mem', he2p⟩ := get_friendship_some hg2
      have he2mem : e2 ∈ fs := by
        have := he2mem'
        unfold deleteFriendshipDoc at this
        exact (List.mem_filter.mp this).1
      have he2idne : e2.friendship_id ≠ e1.friendship_id := by
        have hm := he2mem'
        unfold deleteFriendshipDoc at hm
        have := (List.mem_filter.mp hm).2
        simpa [bne_iff_ne] using this
      have hrem : remove_friend fs u f = Except.ok
          (deleteFriendshipDoc (deleteFriendshipDoc fs e1.friendship_id)
            e2.friendship_id) := by
        simp [remove_friend, hg1, hg2]
      constructor
      · rw [hrem]
        exact ⟨fun h => Except.noConfusion h, fun h => hg1err _ h⟩
      · intro fs' hok
        rw [hrem] at hok
        injection hok with hok
        subst hok
        unfold deleteFriendshipDoc
        rw [List.filter_filter]
        apply List.filter_congr
        intro x hx
        by_cases hxid1 : x.friendship_id = e1.friendship_id
        · have hxe : x = e1 := hid x hx e1 he1mem hxid1
          simp [hxe, he1p]
        · by_cases hxid2 : x.friendship_id = e2.friendship_id
          · have hxe : x = e2 := hid x hx e2 he2mem hxid2
            simp [hxe, he2p]
          · have hp1x : friendshipMatches u f x = false := by
              by_contra hc
              have hcx : friendshipMatches u f x = true := by simpa using hc
              exact hxid1 (congrArg Friendship.friendship_id
                (h1 x hx e1 he1mem hcx he1p))
            have hp2x : friendshipMatches f u x = false := by
              by_contra hc
              have hcx : friendshipMatches f u x = true := by simpa using hc
              exact hxid2 (congrArg Friendship.friendship_id
                (h2 x hx e2 he2mem hcx he2p))
            simp [hp1x, hp2x, bne_iff_ne, hxid1, hxid2]

/-- Witness for the amended removal characterization on a concrete
one-edge store. -/
theorem remove_friend_correct_witness :
    remove_friend [wEdgeAB] "alice" "bob" = Except.error errFriendshipNotFound ↔
      get_friendship [wEdgeAB] "alice" "bob" = none ∧
      get_friendship [wEdgeAB] "bob" "alice" = none :=
  (remove_friend_correct [wEdgeAB] "alice" "bob" (by decide) (by decide)
    (by decide)).1

/-- Looking up a missing key yields the default 0; otherwise a stored
non-negative value. -/
theorem dictGet_nonneg (d : List (String × Int)) (k : String)
    (h : ∀ p ∈ d, 0 ≤ p.2) : 0 ≤ dictGet d k := by
  unfold dictGet
  cases hf : d.find? (fun p => p.1 == k) with
  | none => exact le_refl 0
  | some p => exact h p (List.mem_of_find?_eq_some hf)

/-- Setting a non-negative value preserves dictionary non-negativity. -/
theorem dictSet_nonneg (d : List (String × Int)) (k : String) (v : Int)
    (hd : ∀ p ∈ d, 0 ≤ p.2) (hv : 0 ≤ v) :
    ∀ p ∈ dictSet d k v, 0 ≤ p.2 := by
  intro p hp
  unfold dictSet at hp
  by_cases hc : d.any (fun p => p.1 == k)
  · rw [if_pos hc] at hp
    obtain ⟨q, hq, hpq⟩ := List.mem_map.mp hp
    by_cases h2 : (q.1 == k) = true
    · rw [if_pos h2] at hpq
      rw [← hpq]
      exact hv
    · rw [if_neg h2] at hpq
      rw [← hpq]
      exact hd q hq
  · rw [if_neg hc] at hp
    rcases List.mem_append.mp hp with h | h
    · exact hd p h
    · have hpkv : p = (k, v) := by simpa using h
      rw [hpkv]
      exact hv

/-- The conversation upsert of a send keeps all unread counters
non-negative. -/
theorem create_or_update_nonneg (convs : List Conversation) (cid : String)
    (pids : List String) (content sender recipient : String) (now : Int)
    (h : UnreadNonneg convs) :
    UnreadNonneg (_create_or_update_conversation convs cid pids content
      sender recipient now) := by
  unfold _create_or_update_conversation
  cases hf : convs.find? (fun c => c.conversation_id == cid) with
  | none =>
    intro c hc p hp
    rcases List.mem_append.mp hc with hcc | hcc
    · exact h c hcc p hp
    · have hcc' := List.mem_singleton.mp hcc
      subst hcc'
      refine dictSet_nonneg _ _ _
        (dictSet_nonneg _ _ _
          (dictSet_nonneg _ _ _ (fun q hq => absurd hq (List.not_mem_nil q))
            le_rfl)
          le_rfl)
        zero_le_one p hp
  | some c0 =>
    have hc0mem : c0 ∈ convs := List.mem_of_find?_eq_some hf
    intro c hc p hp
    obtain ⟨q, hq, hqc⟩ := List.mem_map.mp hc
    by_cases hqe : (q.conversation_id == cid) = true
    · rw [if_pos hqe] at hqc
      rw [← hqc] at hp
      refine dictSet_nonneg _ _ _ (h c0 hc0mem) ?_ p hp
      have := dictGet_nonneg c0.unread_counts recipient (h c0 hc0mem)
      linarith
    · rw [if_neg hqe] at hqc
      rw [← hqc] at hp
      exact h q hq p hp

/-- One floored decrement keeps all unread counters non-negative. -/
theorem applyDecrement_nonneg (user : String) (convs : List Conversation)
    (cid : String) (dec : Int) (h : UnreadNonneg convs) :
    UnreadNonneg (applyDecrement user convs cid dec) := by
  unfold applyDecrement
  cases hf : convs.find? (fun c => c.conversation_id == cid) with
  | none => exact h
  | some c0 =>
    intro c hc p hp
    obtain ⟨q, hq, hqc⟩ := List.mem_map.mp hc
    by_cases hqe : (q.conversation_id == cid) = true
    · rw [if_pos hqe] at hqc
      rw [← hqc] at hp
      exact dictSet_nonneg _ _ _ (h q hq) (le_max_left 0 _) p hp
    · rw [if_neg hqe] at hqc
      rw [← hqc] at hp
      exact h q hq p hp

/-- The whole decrement pass keeps all unread counters non-negative. -/
theorem foldl_applyDecrement_nonneg (user : String)
    (decs : List (String × Int)) (convs : List Conversation)
    (h : UnreadNonneg convs) :
    UnreadNonneg (decs.foldl
      (fun cs p => applyDecrement user cs p.1 p.2) convs) := by
  induction decs generalizing convs with
  | nil => exact h
  | cons d rest ih => exact ih _ (applyDecrement_nonneg user convs d.1 d.2 h)

/-- `mark_messages_as_read` keeps all unread counters non-negative. -/
theorem mark_messages_as_read_nonneg (user : String) (ids : List String)
    (msgs : List Message) (convs : List Conversation) (now : Int)
    (h : UnreadNonneg convs) :
    UnreadNonneg (mark_messages_as_read user ids msgs convs now).conversations := by
  unfold mark_messages_as_read
  rcases hm : markReadLoop user now ids msgs 0 [] with ⟨msgs', cnt, decs, err⟩
  cases err with
  | none => exact foldl_applyDecrement_nonneg user decs convs h
  | some e => exact h

/-- A successful send keeps all unread counters non-negative. -/
theorem send_message_nonneg (users : Users) (fs : List Friendship)
    (msgs : List Message) (convs : List Conversation)
    (sender recipient content ctype : String) (now : Int) (nid : String)
    (h : UnreadNonneg convs) (r : SendResult)
    (hr : send_message users fs msgs convs sender recipient content ctype
      now nid = Except.ok r) :
    UnreadNonneg r.conversations := by
  unfold send_message at hr
  by_cases h1 : (sender == recipient) = true
  · rw [if_pos h1] at hr
    exact Except.noConfusion hr
  · rw [if_neg h1] at hr
    by_cases h2 : (users recipient).isNone = true
    · rw [if_pos h2] at hr
      exact Except.noConfusion hr
    · rw [if_neg h2] at hr
      cases hp : _check_messaging_permission fs sender recipient with
      | error e =>
        rw [hp] at hr
        exact Except.noConfusion hr
      | ok u =>
        rw [hp] at hr
        injection hr with hr
        rw [← hr]
        exact create_or_update_nonneg convs _ _ _ _ _ _ h

/-- Any single operation keeps all unread counters non-negative. -/
theorem applyOp_nonneg (users : Users) (fs : List Friendship)
    (s : List Message × List Conversation) (op : Op)
    (h : UnreadNonneg s.2) : UnreadNonneg (applyOp users fs s op).2 := by
  cases op with
  | send sender recipient content ctype now nid =>
    cases hr : send_message users fs s.1 s.2 sender recipient content ctype
        now nid with
    | error e =>
      simp only [applyOp]
      rw [hr]
      exact h
    | ok r =>
      simp only [applyOp]
      rw [hr]
      exact send_message_nonneg users fs s.1 s.2 sender recipient content
        ctype now nid h r hr
  | markRead user ids now =>
    simp only [applyOp]
    exact mark_messages_as_read_nonneg user ids s.1 s.2 now h

/-- C5: starting from any stores whose conversation unread counters are
all non-negative, every sequence of send and mark-read operations keeps
them non-negative — sends add 1 (and seed a new conversation with counts
0 and 1), mark-read subtracts the accumulated decrement floored at 0. -/
theorem unread_counts_never_negative (users : Users) (fs : List Friendship)
    (ops : List Op) (s : List Message × List Conversation)
    (h : UnreadNonneg s.2) :
    UnreadNonneg (ops.foldl (applyOp users fs) s).2 := by
  induction ops generalizing s with
  | nil => exact h
  | cons op rest ih => exact ih _ (applyOp_nonneg users fs s op h)

/-- Witness: running a concrete send followed by two mark-reads from
the empty stores keeps the unread counters non-negative. -/
theorem unread_counts_never_negative_witness :
    UnreadNonneg (([], []) : List Message × List Conversation).2 ∧
    UnreadNonneg (wOps.foldl (applyOp wUsersAB [wEdgeAB]) ([], [])).2 :=
  ⟨by decide,
    unread_counts_never_negative wUsersAB [wEdgeAB] wOps ([], []) (by decide)⟩

end Bubble
